import Mathlib

/-!
Shallow embedding of the USGS GridFloat elevation-tile engine of drmap
(`src/grid_float.cpp`, `include/grid_float.h`), together with proofs of the
testable properties stated for it.

Modelling conventions:
* C++ `double`/`float` arithmetic is idealised as exact arithmetic in a
  linear ordered field (`ℚ` for the purely algebraic index/naming claims so
  that witnesses are decidable, `ℝ` where the code calls trigonometric
  functions);
* C++ `(int)x` conversion truncates toward zero (`cppInt` below);
* the tile raster (`_data`, or the disk-backed seek path, which reads the
  same row-major values) is modelled as a total function from indices to
  values — the two loading strategies are observationally a value table;
* `throw grid_float_error(...)` becomes the `Except.error` branch of an
  `Except` result carrying the error code, the quadrant named in the
  message, and the coordinates interpolated at;
* effectful file/network code (`download_if_necessary`) is modelled over an
  abstract file system and an environment giving the effect of each external
  command.
-/

namespace Drmap

/-- Constants from `grid_float.h`: mean Earth radius in metres. -/
def RE : ℝ := 6371000.0

/-- The code's `PI` constant (a truncated decimal literal, not the real π). -/
def cppPI : ℝ := 3.14159265358979

/-- `DTOR` from `grid_float.h`: degrees-to-radians factor built from `cppPI`. -/
noncomputable def DTOR : ℝ := cppPI / 180.0

/-- `RTOD` from `grid_float.h`. -/
noncomputable def RTOD : ℝ := 1.0 / DTOR

/-- Error code `GRID_FLOAT_NODATA` from `grid_float.h`. -/
def GRID_FLOAT_NODATA : ℤ := -1

/-- C++ floating-to-`int` conversion: truncation toward zero. -/
def cppInt {α : Type} [LinearOrderedField α] [FloorRing α] (x : α) : ℤ :=
  if 0 ≤ x then ⌊x⌋ else ⌈x⌉

/-- The quadrant enumeration of `grid_float_tile` (`Q0` = within one metre of
the cell centre). -/
inductive QUADRANT : Type
  | Q0
  | Q1
  | Q2
  | Q3
  | Q4
deriving DecidableEq

/-- The state of a `grid_float_tile` after its constructor has parsed the
header: raster dimensions, lower-left corner, cell size, the `NODATA`
sentinel (`_nodata`), and the raster values (row-major, row 0 northernmost),
modelled as a total index function. -/
structure grid_float_tile (α : Type) where
  n_columns : ℤ
  n_rows : ℤ
  xllcorner : α
  yllcorner : α
  cellsize : α
  nodata : ℤ
  data : ℤ → ℤ → α

namespace grid_float_tile

variable {α : Type} [LinearOrderedField α] [FloorRing α]

/-- `_xl`: longitude of the western edge. -/
def xl (t : grid_float_tile α) : α := t.xllcorner

/-- `_xr = _xllcorner + _cellsize * _n_columns`: longitude of the eastern edge. -/
def xr (t : grid_float_tile α) : α := t.xllcorner + t.cellsize * t.n_columns

/-- `_yb`: latitude of the southern edge. -/
def yb (t : grid_float_tile α) : α := t.yllcorner

/-- `_yt = _yllcorner + _cellsize * _n_rows`: latitude of the northern edge. -/
def yt (t : grid_float_tile α) : α := t.yllcorner + t.cellsize * t.n_rows

/-- `_map_latitude_to_index`: `int((_yt - latitude) / _cellsize)`. -/
def map_latitude_to_index (t : grid_float_tile α) (latitude : α) : ℤ :=
  cppInt ((t.yt - latitude) / t.cellsize)

/-- `_map_longitude_to_index`: `int((longitude - _xl) / _cellsize)`. -/
def map_longitude_to_index (t : grid_float_tile α) (longitude : α) : ℤ :=
  cppInt ((longitude - t.xl) / t.cellsize)

/-- `_is_between(value, v1, v2)`: inclusive, order-independent bound check. -/
def is_between (value v1 v2 : α) : Bool :=
  if v1 ≤ value ∧ value ≤ v2 then true
  else if v2 ≤ value ∧ value ≤ v1 then true
  else false

/-- `is_in_tile(latitude, longitude)`. -/
def is_in_tile (t : grid_float_tile α) (latitude longitude : α) : Bool :=
  is_between latitude t.yb t.yt && is_between longitude t.xl t.xr

/-- `index_pair(latitude, longitude)`. -/
def index_pair (t : grid_float_tile α) (latitude longitude : α) : ℤ × ℤ :=
  (t.map_latitude_to_index latitude, t.map_longitude_to_index longitude)

/-- `cell_centre(ipair)` (index-pair overload): no bounds checking. -/
def cell_centre (t : grid_float_tile α) (ipair : ℤ × ℤ) : α × α :=
  (t.yt - t.cellsize / 2 - ipair.1 * t.cellsize,
   t.xl + t.cellsize / 2 + ipair.2 * t.cellsize)

/-- `cell_centre(latitude, longitude)` (point overload). -/
def cell_centre_ll (t : grid_float_tile α) (latitude longitude : α) : α × α :=
  t.cell_centre (t.index_pair latitude longitude)

/-- `cell_value(latitude, longitude)`: the containment-checked point query;
returns the `_nodata` sentinel if the point is not in the tile.  In both
memory strategies the in-tile result is the stored raster value at
`[row][col]`. -/
def cell_value (t : grid_float_tile α) (latitude longitude : α) : α :=
  if t.is_in_tile latitude longitude then
    t.data (t.map_latitude_to_index latitude) (t.map_longitude_to_index longitude)
  else
    (t.nodata : α)

/-- `cell_value(ip)` (index-pair overload): no bounds checking. -/
def cell_value_ip (t : grid_float_tile α) (ip : ℤ × ℤ) : α :=
  t.data ip.1 ip.2

/-- `valid_height(h)`: `h > (_nodata + 1)` (the `_nodata + 1` sum is computed
in integer arithmetic before the comparison). -/
def valid_height (t : grid_float_tile α) (h : α) : Bool :=
  if ((t.nodata + 1 : ℤ) : α) < h then true else false

end grid_float_tile

/-- The C library `atan2(y, x)` (mathematical definition; the C runtime's
`atan2` is the idealised real function). -/
noncomputable def atan2 (y x : ℝ) : ℝ :=
  if 0 < x then Real.arctan (y / x)
  else if x < 0 then
    (if 0 ≤ y then Real.arctan (y / x) + Real.pi else Real.arctan (y / x) - Real.pi)
  else
    (if 0 < y then Real.pi / 2 else if y < 0 then -(Real.pi / 2) else 0)

/-- The haversine intermediate `a` of `distance` in `grid_float.cpp`:
`sin²(Δφ/2·DTOR) + cos(φ1·DTOR)·cos(φ2·DTOR)·sin²(Δλ/2·DTOR)`. -/
noncomputable def hav_a (lat1 long1 lat2 long2 : ℝ) : ℝ :=
  Real.sin ((lat2 - lat1) / 2 * DTOR) * Real.sin ((lat2 - lat1) / 2 * DTOR) +
    Real.cos (lat1 * DTOR) * Real.cos (lat2 * DTOR) *
      Real.sin ((long2 - long1) / 2 * DTOR) * Real.sin ((long2 - long1) / 2 * DTOR)

/-- `distance(lat1, long1, lat2, long2)` from `grid_float.cpp`:
`d = RE * c` with `c = 2 * atan2(√a, √(1-a))`.  (Despite the doc comment
mentioning km, `RE` is in metres, so the result is in metres.) -/
noncomputable def distance (lat1 long1 lat2 long2 : ℝ) : ℝ :=
  RE * (2 * atan2 (Real.sqrt (hav_a lat1 long1 lat2 long2))
                  (Real.sqrt (1 - hav_a lat1 long1 lat2 long2)))

namespace grid_float_tile

/-- `_quadrant(latitude, longitude)`: `Q0` within one metre of the centre of
the containing cell, otherwise the sign tests of the source, in order. -/
noncomputable def quadrant (t : grid_float_tile ℝ) (latitude longitude : ℝ) : QUADRANT :=
  let centre := t.cell_centre_ll latitude longitude
  let c_latitude := centre.1
  let c_longitude := centre.2
  let dist := distance c_latitude c_longitude latitude longitude
  if dist < 1 then QUADRANT.Q0
  else if c_latitude ≤ latitude ∧ c_longitude ≤ longitude then QUADRANT.Q1
  else if c_latitude ≤ latitude ∧ longitude ≤ c_longitude then QUADRANT.Q2
  else if latitude ≤ c_latitude ∧ longitude ≤ c_longitude then QUADRANT.Q3
  else QUADRANT.Q4

end grid_float_tile

/-- The payload of a thrown `grid_float_error` in `interpolated_value`: the
error code and the quadrant and coordinates named in the message string. -/
structure grid_float_error where
  code : ℤ
  quadrant : QUADRANT
  latitude : ℝ
  longitude : ℝ

namespace grid_float_tile

/-- One arm of the `switch (q)` of `interpolated_value`, for a given quadrant
classification.  `ll_centre` (the centre of the containing cell) is recomputed
here; it is the same pure value the source computes before the switch.
In the `Q1`–`Q4` arms the final `(inv_d == 0) ? _nodata : (h / inv_d)` ternary
is reached only after the `inv_d == 0` throw, so its sentinel branch is dead
and the arm returns `h / inv_d`. -/
noncomputable def quadrant_value (t : grid_float_tile ℝ) (latitude longitude : ℝ) :
    QUADRANT → Except grid_float_error ℝ
  | QUADRANT.Q0 =>
    let cv := t.cell_value latitude longitude
    if cv < -9000 then
      Except.error ⟨GRID_FLOAT_NODATA, QUADRANT.Q0, latitude, longitude⟩
    else
      Except.ok cv
  | QUADRANT.Q1 =>
    let ll_centre := t.cell_centre_ll latitude longitude
    let indices_0 := t.index_pair latitude longitude
    let h0 := t.cell_value latitude longitude
    let d0 := distance ll_centre.1 ll_centre.2 latitude longitude
    let indices_1 := (indices_0.1, indices_0.2 + 1)
    let c1 := t.cell_centre indices_1
    let h1 := t.cell_value_ip indices_1
    let d1 := distance c1.1 c1.2 latitude longitude
    let indices_2 := (indices_0.1 - 1, indices_0.2)
    let c2 := t.cell_centre indices_2
    let h2 := t.cell_value_ip indices_2
    let d2 := distance c2.1 c2.2 latitude longitude
    let indices_3 := (indices_0.1 - 1, indices_0.2 + 1)
    let c3 := t.cell_centre indices_3
    let h3 := t.cell_value_ip indices_3
    let d3 := distance c3.1 c3.2 latitude longitude
    let h := (if t.valid_height h0 then h0 / d0 else 0) +
             (if t.valid_height h1 then h1 / d1 else 0) +
             (if t.valid_height h2 then h2 / d2 else 0) +
             (if t.valid_height h3 then h3 / d3 else 0)
    let inv_d := (if t.valid_height h0 then 1 / d0 else 0) +
                 (if t.valid_height h1 then 1 / d1 else 0) +
                 (if t.valid_height h2 then 1 / d2 else 0) +
                 (if t.valid_height h3 then 1 / d3 else 0)
    if inv_d = 0 then
      Except.error ⟨GRID_FLOAT_NODATA, QUADRANT.Q1, latitude, longitude⟩
    else
      Except.ok (h / inv_d)
  | QUADRANT.Q2 =>
    let ll_centre := t.cell_centre_ll latitude longitude
    let indices_0 := t.index_pair latitude longitude
    let h0 := t.cell_value latitude longitude
    let d0 := distance ll_centre.1 ll_centre.2 latitude longitude
    let indices_1 := (indices_0.1, indices_0.2 - 1)
    let c1 := t.cell_centre indices_1
    let h1 := t.cell_value_ip indices_1
    let d1 := distance c1.1 c1.2 latitude longitude
    let indices_2 := (indices_0.1 - 1, indices_0.2)
    let c2 := t.cell_centre indices_2
    let h2 := t.cell_value_ip indices_2
    let d2 := distance c2.1 c2.2 latitude longitude
    let indices_3 := (indices_0.1 - 1, indices_0.2 - 1)
    let c3 := t.cell_centre indices_3
    let h3 := t.cell_value_ip indices_3
    let d3 := distance c3.1 c3.2 latitude longitude
    let h := h0 / d0 + h1 / d1 + h2 / d2 + h3 / d3
    let inv_d := 1 / d0 + 1 / d1 + 1 / d2 + 1 / d3
    if inv_d = 0 then
      Except.error ⟨GRID_FLOAT_NODATA, QUADRANT.Q2, latitude, longitude⟩
    else
      Except.ok (h / inv_d)
  | QUADRANT.Q3 =>
    let ll_centre := t.cell_centre_ll latitude longitude
    let indices_0 := t.index_pair latitude longitude
    let h0 := t.cell_value latitude longitude
    let d0 := distance ll_centre.1 ll_centre.2 latitude longitude
    let indices_1 := (indices_0.1, indices_0.2 - 1)
    let c1 := t.cell_centre indices_1
    let h1 := t.cell_value_ip indices_1
    let d1 := distance c1.1 c1.2 latitude longitude
    let indices_2 := (indices_0.1 + 1, indices_0.2)
    let c2 := t.cell_centre indices_2
    let h2 := t.cell_value_ip indices_2
    let d2 := distance c2.1 c2.2 latitude longitude
    let indices_3 := (indices_0.1 + 1, indices_0.2 - 1)
    let c3 := t.cell_centre indices_3
    let h3 := t.cell_value_ip indices_3
    let d3 := distance c3.1 c3.2 latitude longitude
    let h := h0 / d0 + h1 / d1 + h2 / d2 + h3 / d3
    let inv_d := 1 / d0 + 1 / d1 + 1 / d2 + 1 / d3
    if inv_d = 0 then
      Except.error ⟨GRID_FLOAT_NODATA, QUADRANT.Q3, latitude, longitude⟩
    else
      Except.ok (h / inv_d)
  | QUADRANT.Q4 =>
    let ll_centre := t.cell_centre_ll latitude longitude
    let indices_0 := t.index_pair latitude longitude
    let h0 := t.cell_value latitude longitude
    let d0 := distance ll_centre.1 ll_centre.2 latitude longitude
    let indices_1 := (indices_0.1, indices_0.2 + 1)
    let c1 := t.cell_centre indices_1
    let h1 := t.cell_value_ip indices_1
    let d1 := distance c1.1 c1.2 latitude longitude
    let indices_2 := (indices_0.1 + 1, indices_0.2)
    let c2 := t.cell_centre indices_2
    let h2 := t.cell_value_ip indices_2
    let d2 := distance c2.1 c2.2 latitude longitude
    let indices_3 := (indices_0.1 + 1, indices_0.2 + 1)
    let c3 := t.cell_centre indices_3
    let h3 := t.cell_value_ip indices_3
    let d3 := distance c3.1 c3.2 latitude longitude
    let h := h0 / d0 + h1 / d1 + h2 / d2 + h3 / d3
    let inv_d := 1 / d0 + 1 / d1 + 1 / d2 + 1 / d3
    if inv_d = 0 then
      Except.error ⟨GRID_FLOAT_NODATA, QUADRANT.Q4, latitude, longitude⟩
    else
      Except.ok (h / inv_d)

/-- `interpolated_value(latitude, longitude)`: classify the point's quadrant
and evaluate the corresponding `switch` arm. -/
noncomputable def interpolated_value (t : grid_float_tile ℝ) (latitude longitude : ℝ) :
    Except grid_float_error ℝ :=
  t.quadrant_value latitude longitude (t.quadrant latitude longitude)

end grid_float_tile

/-! ### Spec-side description of the quadrant interpolation

Following the specification's words: each non-`Q0` quadrant selects the query
cell and its three neighbours in the quadrant's direction (`Q1`: right, up,
up-right; `Q2`: left, up, up-left; `Q3`: left, down, down-left; `Q4`: right,
down, down-right), and combines them by an inverse-distance-weighted mean
`sum(height_i / distance_i) / sum(1 / distance_i)`, restricted in the `Q1`
case to cells passing the `valid_height` check.  These definitions are the
spec's formula, to be compared with `interpolated_value` above. -/

/-- The four cells a quadrant's interpolation draws on, given the index pair
of the query cell (spec's neighbour-selection rule; `Q0` uses only the query
cell and is listed degenerately). -/
def quadrant_cells : QUADRANT → ℤ × ℤ → Fin 4 → ℤ × ℤ
  | QUADRANT.Q0, ip => ![ip, ip, ip, ip]
  | QUADRANT.Q1, ip => ![ip, (ip.1, ip.2 + 1), (ip.1 - 1, ip.2), (ip.1 - 1, ip.2 + 1)]
  | QUADRANT.Q2, ip => ![ip, (ip.1, ip.2 - 1), (ip.1 - 1, ip.2), (ip.1 - 1, ip.2 - 1)]
  | QUADRANT.Q3, ip => ![ip, (ip.1, ip.2 - 1), (ip.1 + 1, ip.2), (ip.1 + 1, ip.2 - 1)]
  | QUADRANT.Q4, ip => ![ip, (ip.1, ip.2 + 1), (ip.1 + 1, ip.2), (ip.1 + 1, ip.2 + 1)]

namespace grid_float_tile

/-- Spec-side height of the `i`-th interpolation cell: the query cell is
fetched by the containment-checked point query, the neighbours by raw index. -/
noncomputable def nbr_height (t : grid_float_tile ℝ) (latitude longitude : ℝ)
    (q : QUADRANT) : Fin 4 → ℝ :=
  ![t.cell_value latitude longitude,
    t.cell_value_ip (quadrant_cells q (t.index_pair latitude longitude) 1),
    t.cell_value_ip (quadrant_cells q (t.index_pair latitude longitude) 2),
    t.cell_value_ip (quadrant_cells q (t.index_pair latitude longitude) 3)]

/-- Spec-side centre-to-point great-circle distance of the `i`-th
interpolation cell. -/
noncomputable def nbr_dist (t : grid_float_tile ℝ) (latitude longitude : ℝ)
    (q : QUADRANT) (i : Fin 4) : ℝ :=
  distance (t.cell_centre (quadrant_cells q (t.index_pair latitude longitude) i)).1
           (t.cell_centre (quadrant_cells q (t.index_pair latitude longitude) i)).2
           latitude longitude

/-- Spec-side weighted-height numerator with the `valid_height` filter
(the `Q1` combination rule). -/
noncomputable def idw_num_filtered (t : grid_float_tile ℝ) (latitude longitude : ℝ)
    (q : QUADRANT) : ℝ :=
  ∑ i : Fin 4, if t.valid_height (t.nbr_height latitude longitude q i) then
    t.nbr_height latitude longitude q i / t.nbr_dist latitude longitude q i else 0

/-- Spec-side weight denominator with the `valid_height` filter. -/
noncomputable def idw_den_filtered (t : grid_float_tile ℝ) (latitude longitude : ℝ)
    (q : QUADRANT) : ℝ :=
  ∑ i : Fin 4, if t.valid_height (t.nbr_height latitude longitude q i) then
    1 / t.nbr_dist latitude longitude q i else 0

/-- Spec-side weighted-height numerator with no validity filter
(the `Q2`/`Q3`/`Q4` combination rule). -/
noncomputable def idw_num (t : grid_float_tile ℝ) (latitude longitude : ℝ)
    (q : QUADRANT) : ℝ :=
  ∑ i : Fin 4, t.nbr_height latitude longitude q i / t.nbr_dist latitude longitude q i

/-- Spec-side weight denominator with no validity filter. -/
noncomputable def idw_den (t : grid_float_tile ℝ) (latitude longitude : ℝ)
    (q : QUADRANT) : ℝ :=
  ∑ i : Fin 4, 1 / t.nbr_dist latitude longitude q i

end grid_float_tile

/-! ### Forward geodesic (`ll_from_bd`) -/

/-- `ll_from_bd(lat1, long1, bearing_d, distance_m)` exactly as the source
computes it.  Note the parenthesisation of `lat2_r`: the source applies
`sin` to `lat1_r * cos(delta) + cos(lat1_r) * sin(delta) * cos(theta)` as a
whole. -/
noncomputable def ll_from_bd (lat1 long1 bearing_d distance_m : ℝ) : ℝ × ℝ :=
  let delta := distance_m / RE
  let lat1_r := lat1 * DTOR
  let long1_r := long1 * DTOR
  let theta := bearing_d * DTOR
  let lat2_r := Real.arcsin
    (Real.sin (lat1_r * Real.cos delta + Real.cos lat1_r * Real.sin delta * Real.cos theta))
  let long2_r := long1_r +
    atan2 (Real.sin theta * Real.sin delta * Real.cos lat1_r)
          (Real.cos delta - Real.sin lat1_r * Real.sin lat2_r)
  (lat2_r * RTOD, long2_r * RTOD)

/-- Modelled from the spec (and from the formula in the source's own doc
comment): the standard forward geodesic,
`φ2 = asin(sin φ1 · cos δ + cos φ1 · sin δ · cos θ)`. -/
noncomputable def ll_from_bd_spec (lat1 long1 bearing_d distance_m : ℝ) : ℝ × ℝ :=
  let delta := distance_m / RE
  let lat1_r := lat1 * DTOR
  let long1_r := long1 * DTOR
  let theta := bearing_d * DTOR
  let lat2_r := Real.arcsin
    (Real.sin lat1_r * Real.cos delta + Real.cos lat1_r * Real.sin delta * Real.cos theta)
  let long2_r := long1_r +
    atan2 (Real.sin theta * Real.sin delta * Real.cos lat1_r)
          (Real.cos delta - Real.sin lat1_r * Real.sin lat2_r)
  (lat2_r * RTOD, long2_r * RTOD)

/-! ### Tile naming (`llc`, `base_filename`) -/

/-- `std::to_string` on a non-negative `int`, digit-list form: fuel-bounded
decimal formatting (the fuel always suffices, `to_string_digits` supplies
`n + 1`). -/
def to_string_go (fuel n : ℕ) : List Char :=
  match fuel with
  | 0 => []
  | fuel + 1 =>
    if n < 10 then [Nat.digitChar n]
    else to_string_go fuel (n / 10) ++ [Nat.digitChar (n % 10)]

/-- `std::to_string` on a non-negative `int`: its decimal digits. -/
def to_string_digits (n : ℕ) : List Char := to_string_go (n + 1) n

/-- `pad_string(s, len, PAD_LEFT, pad_char)`: return `s` unchanged when it is
already at least `len` long, otherwise prepend pad characters. -/
def pad_string (s : List Char) (len : ℕ) (pad_char : Char) : List Char :=
  if len ≤ s.length then s else List.replicate (len - s.length) pad_char ++ s

/-- `from_string<int>` (an `istringstream` extraction) on the digit-only
strings produced by the naming scheme: decimal value of the digits. -/
def from_string_nat (s : List Char) : ℕ :=
  s.foldl (fun acc c => 10 * acc + (c.toNat - '0'.toNat)) 0

/-- `base_filename(llcode)`:
`"n" + pad(to_string(llcode / 1000), 2, '0') + "w" + pad(to_string(llcode % 1000), 3, '0')`
(the llcode is non-negative in every caller, so C++ `/` and `%` agree with
natural division). -/
def base_filename (llcode : ℕ) : List Char :=
  'n' :: (pad_string (to_string_digits (llcode / 1000)) 2 '0' ++
    'w' :: pad_string (to_string_digits (llcode % 1000)) 3 '0')

/-- `llc(basefilename)`:
`from_string<int>(s.substr(1, 2)) * 1000 + from_string<int>(s.substr(4, 3))`. -/
def llc_of_base (s : List Char) : ℕ :=
  from_string_nat ((s.drop 1).take 2) * 1000 + from_string_nat ((s.drop 4).take 3)

/-- `llc(latitude, longitude)`: `int(latitude + 1) * 1000 + int(-(longitude - 1))`. -/
def llc {α : Type} [LinearOrderedField α] [FloorRing α] (latitude longitude : α) : ℤ :=
  cppInt (latitude + 1) * 1000 + cppInt (-(longitude - 1))

/-- `base_filename(llcode)` as a `String`, for filename construction. -/
def base_filename_string (llcode : ℕ) : String := String.mk (base_filename llcode)

/-! ### Tile fetcher (`download_if_necessary`)

The local file system is a partial map from path to file size; the effect of
each external command (`wget`, `unzip`, `mv`, issued through `system`) and of
`directory_create_if_necessary` is an abstract environment transforming the
file system. -/

/-- Abstract local file system: maps a path to the size of the file stored
there, `none` when no such file exists. -/
structure file_system where
  files : String → Option ℕ

/-- `file_exists` (diskfile.h): does the path name a file? -/
def file_exists (fs : file_system) (filename : String) : Bool :=
  (fs.files filename).isSome

/-- `file_size` (diskfile.cpp): length in bytes, `0` if the file does not
exist or is not readable. -/
def file_size (fs : file_system) (filename : String) : ℕ :=
  (fs.files filename).getD 0

/-- `file_empty` (diskfile.h): `file_size(filename) == 0`. -/
def file_empty (fs : file_system) (filename : String) : Bool :=
  file_size fs filename == 0

/-- `file_delete` (diskfile.cpp): unlink the file if it exists. -/
def file_delete (fs : file_system) (filename : String) : file_system :=
  if file_exists fs filename then
    ⟨fun m => if m = filename then none else fs.files m⟩
  else fs

/-- `last_char` (string_functions.cpp): the last character of a string.  (The
C++ throws on an empty string; callers here pass non-empty directory names,
and the model returns a junk character for the empty string.) -/
def last_char (s : String) : Char := s.toList.getLastD ' '

/-- `dirname_with_slash`-style directory normalisation done inline by
`download_if_necessary`: ensure a terminating slash. -/
def local_dirname (local_directory : String) : String :=
  local_directory ++ (if last_char local_directory = '/' then "" else "/")

/-- The full local header filename `download_if_necessary` checks. -/
def full_header_name (llcode : ℕ) (local_directory : String) : String :=
  local_dirname local_directory ++ "usgs_ned_13_" ++ base_filename_string llcode ++
    "_gridfloat.hdr"

/-- The full local data filename `download_if_necessary` checks. -/
def full_data_name (llcode : ℕ) (local_directory : String) : String :=
  local_dirname local_directory ++ "usgs_ned_13_" ++ base_filename_string llcode ++
    "_gridfloat.flt"

/-- Environment giving the file-system effect of the external commands the
fetcher can invoke: `run` for a `system(...)` command line, `create_dir` for
`directory_create_if_necessary`. -/
structure sys_env where
  run : String → file_system → file_system
  create_dir : String → file_system → file_system

/-- Result of the fetcher: the resulting file system, or process termination
via `exit(-1)`. -/
inductive fetch_result
  | ok (fs : file_system)
  | fatal

/-- The download loop of `download_if_necessary`: try each remote filename in
order until a non-empty local archive is present; an empty download is
deleted and the next naming convention is tried. -/
def try_downloads (env : sys_env) (local_filename remote_directory : String) :
    List String → file_system → file_system × Bool
  | [], fs => (fs, false)
  | remote_filename :: rest, fs =>
    let fs1 := if !file_exists fs local_filename then
        env.run ("wget -q -O " ++ local_filename ++ " " ++ remote_directory ++
          remote_filename) fs
      else fs
    if file_empty fs1 local_filename then
      try_downloads env local_filename remote_directory rest (file_delete fs1 local_filename)
    else (fs1, true)

/-- The unzip-with-fallback step of `download_if_necessary`, shared by the
header and data blocks: unzip the default in-archive name; if the expected
file did not appear, unzip the alternative name and `mv` it into place;
`none` means both naming conventions failed (fatal). -/
def extract_member (env : sys_env) (local_directory local_filename : String)
    (default_name alternative_name : String) (fs : file_system) : Option file_system :=
  let dirname := local_dirname local_directory
  let fs1 := env.run ("unzip -qq -o -d " ++ local_directory ++ " " ++ local_filename ++
    " " ++ default_name) fs
  if !file_exists fs1 (dirname ++ default_name) then
    let fs2 := env.run ("unzip -qq -o -d " ++ local_directory ++ " " ++ local_filename ++
      " " ++ alternative_name) fs1
    if !file_exists fs2 (dirname ++ alternative_name) then none
    else some (env.run ("mv " ++ dirname ++ alternative_name ++ " " ++ dirname ++
      default_name) fs2)
  else some fs1

/-- `download_if_necessary(llc, local_directory)`: return immediately when the
header and data files are already present and non-empty; otherwise create the
directory, download the archive (two naming conventions), and extract header
and data (each with its own naming fallback).  `fatal` models `exit(-1)`. -/
def download_if_necessary (env : sys_env) (llcode : ℕ) (local_directory : String)
    (fs : file_system) : fetch_result :=
  let need_to_download :=
    !file_exists fs (full_header_name llcode local_directory) ||
    file_empty fs (full_header_name llcode local_directory) ||
    !file_exists fs (full_data_name llcode local_directory) ||
    file_empty fs (full_data_name llcode local_directory)
  if !need_to_download then fetch_result.ok fs
  else
    let fs0 := env.create_dir local_directory fs
    let remote_directory :=
      "https://prd-tnm.s3.amazonaws.com/StagedProducts/Elevation/13/GridFloat/"
    let remote_filenames :=
      ["USGS_NED_13_" ++ base_filename_string llcode ++ "_GridFloat.zip",
       base_filename_string llcode ++ ".zip"]
    let local_filename := local_dirname local_directory ++ base_filename_string llcode ++
      ".zip"
    match try_downloads env local_filename remote_directory remote_filenames fs0 with
    | (_, false) => fetch_result.fatal
    | (fs1, true) =>
      match extract_member env local_directory local_filename
          ("usgs_ned_13_" ++ base_filename_string llcode ++ "_gridfloat.hdr")
          ("float" ++ base_filename_string llcode ++ "_13.hdr") fs1 with
      | none => fetch_result.fatal
      | some fs2 =>
        match extract_member env local_directory local_filename
            ("usgs_ned_13_" ++ base_filename_string llcode ++ "_gridfloat.flt")
            ("float" ++ base_filename_string llcode ++ "_13.flt") fs2 with
        | none => fetch_result.fatal
        | some fs3 => fetch_result.ok fs3

/-! ### Concrete fixtures used by witnesses and counterexamples -/

/-- A 1×1 tile with unit cells and corner at the origin (rational model). -/
def tC1 : grid_float_tile ℚ := ⟨1, 1, 0, 0, 1, -9999, fun _ _ => 0⟩

/-- The spec's concrete-scenario tile: 4×4 cells of 0.1°, lower-left corner
(40, −106), all heights 1000 (rational model). -/
def tC8 : grid_float_tile ℚ := ⟨4, 4, -106, 40, 1/10, -9999, fun _ _ => 1000⟩

/-- A 4×4 unit-cell tile with corner at the origin, all heights 1000. -/
noncomputable def tC3 : grid_float_tile ℝ := ⟨4, 4, 0, 0, 1, -9999, fun _ _ => 1000⟩

/-- A degenerate wide-cell tile whose single cell is centred at the origin,
all heights 1000. -/
noncomputable def tV : grid_float_tile ℝ := ⟨1, 1, -500, -500, 1000, -9999, fun _ _ => 1000⟩

/-- A 2×2 wide-cell tile, every raster value the NODATA sentinel −9999,
positioned so that cell (1, 0) — whose `Q1` neighbours (1, 0), (1, 1),
(0, 0), (0, 1) are all in range — is centred at the origin. -/
noncomputable def tNOD1 : grid_float_tile ℝ :=
  ⟨2, 2, -500, -500, 1000, -9999, fun _ _ => -9999⟩

/-- A 2×2 wide-cell tile, every raster value the NODATA sentinel −9999,
positioned so that cell (1, 1) — whose `Q2` neighbours (1, 1), (1, 0),
(0, 1), (0, 0) are all in range — is centred at the origin. -/
noncomputable def tNOD2 : grid_float_tile ℝ :=
  ⟨2, 2, -1500, -500, 1000, -9999, fun _ _ => -9999⟩

/-- An environment in which every external command is a no-op (enough for the
early-return witness, which must not depend on the environment at all). -/
def envW : sys_env := ⟨fun _ fs => fs, fun _ fs => fs⟩

/-- A file system holding exactly the (non-empty) header and data files of
tile `n41w106` under `/tmp`. -/
def fsW : file_system :=
  ⟨fun n => if n = "/tmp/usgs_ned_13_n41w106_gridfloat.hdr" ∨
               n = "/tmp/usgs_ned_13_n41w106_gridfloat.flt" then some 4 else none⟩

/-! ## Theorems -/

section IndexMapping

variable {α : Type} [LinearOrderedField α] [FloorRing α]

/-- The truncation equals the floor on non-negative arguments. -/
theorem cppInt_of_nonneg {x : α} (h : 0 ≤ x) : cppInt x = ⌊x⌋ :=
  if_pos h

/-- Unfolding of the order-independent bound check. -/
theorem is_between_iff (value v1 v2 : α) :
    grid_float_tile.is_between value v1 v2 = true ↔
      (v1 ≤ value ∧ value ≤ v2) ∨ (v2 ≤ value ∧ value ≤ v1) := by
  by_cases h1 : v1 ≤ value ∧ value ≤ v2 <;>
    by_cases h2 : v2 ≤ value ∧ value ≤ v1 <;>
      simp [grid_float_tile.is_between, h1, h2]

/-- Unfolding of the containment check. -/
theorem is_in_tile_iff (t : grid_float_tile α) (latitude longitude : α) :
    t.is_in_tile latitude longitude = true ↔
      grid_float_tile.is_between latitude t.yb t.yt = true ∧
      grid_float_tile.is_between longitude t.xl t.xr = true := by
  simp [grid_float_tile.is_in_tile]

/-- C1: for an in-tile point of a well-formed tile, the row and column maps
land in `[0, nrows)` and `[0, ncols)` — provided the point does not lie
exactly on the tile's southern or eastern edge.  (As stated, over the whole
inclusive containment region, the claim fails on those two edges; see the
counterexample.) -/
theorem C1_index_bounds (t : grid_float_tile α) (lat lon : α)
    (hnr : 0 < t.n_rows) (hnc : 0 < t.n_columns) (hcs : 0 < t.cellsize)
    (hin : t.is_in_tile lat lon = true) (hlat : lat ≠ t.yb) (hlon : lon ≠ t.xr) :
    (0 ≤ t.map_latitude_to_index lat ∧ t.map_latitude_to_index lat < t.n_rows) ∧
    (0 ≤ t.map_longitude_to_index lon ∧ t.map_longitude_to_index lon < t.n_columns) := by
  have hnr' : (0 : α) < t.n_rows := by exact_mod_cast hnr
  have hnc' : (0 : α) < t.n_columns := by exact_mod_cast hnc
  have hyy : t.yb < t.yt := by
    have : 0 < t.cellsize * t.n_rows := mul_pos hcs hnr'
    simp only [grid_float_tile.yb, grid_float_tile.yt]
    linarith
  have hxx : t.xl < t.xr := by
    have : 0 < t.cellsize * t.n_columns := mul_pos hcs hnc'
    simp only [grid_float_tile.xl, grid_float_tile.xr]
    linarith
  obtain ⟨hby, hbx⟩ := (is_in_tile_iff t lat lon).mp hin
  have hlat2 : t.yb ≤ lat ∧ lat ≤ t.yt := by
    rcases (is_between_iff lat t.yb t.yt).mp hby with h | h
    · exact h
    · exact ⟨le_trans (le_of_lt hyy) h.1, le_trans h.2 (le_of_lt hyy)⟩
  have hlon2 : t.xl ≤ lon ∧ lon ≤ t.xr := by
    rcases (is_between_iff lon t.xl t.xr).mp hbx with h | h
    · exact h
    · exact ⟨le_trans (le_of_lt hxx) h.1, le_trans h.2 (le_of_lt hxx)⟩
  have hlat3 : t.yb < lat := lt_of_le_of_ne hlat2.1 (Ne.symm hlat)
  have hlon3 : lon < t.xr := lt_of_le_of_ne hlon2.2 hlon
  constructor
  · have harg0 : (0 : α) ≤ (t.yt - lat) / t.cellsize :=
      div_nonneg (by linarith [hlat2.2]) (le_of_lt hcs)
    rw [grid_float_tile.map_latitude_to_index, cppInt_of_nonneg harg0]
    refine ⟨Int.floor_nonneg.mpr harg0, Int.floor_lt.mpr ?_⟩
    rw [div_lt_iff hcs]
    have : t.yt - lat < t.cellsize * t.n_rows := by
      simp only [grid_float_tile.yb, grid_float_tile.yt] at hlat3 ⊢
      linarith
    linarith [this]
  · have harg0 : (0 : α) ≤ (lon - t.xl) / t.cellsize :=
      div_nonneg (by linarith [hlon2.1]) (le_of_lt hcs)
    rw [grid_float_tile.map_longitude_to_index, cppInt_of_nonneg harg0]
    refine ⟨Int.floor_nonneg.mpr harg0, Int.floor_lt.mpr ?_⟩
    rw [div_lt_iff hcs]
    have : lon - t.xl < t.cellsize * t.n_columns := by
      simp only [grid_float_tile.xl, grid_float_tile.xr] at hlon3 ⊢
      linarith
    linarith [this]

/-- C1 fails as stated on the southern edge: the point (0, 1/2) is in
`tC1` (a 1×1 tile with unit cell at the origin, all tile parameters
positive), yet its row index equals `nrows`, out of range. -/
theorem C1_counterexample :
    0 < tC1.n_rows ∧ 0 < tC1.n_columns ∧ 0 < tC1.cellsize ∧
    tC1.is_in_tile 0 (1/2) = true ∧
    ¬ (tC1.map_latitude_to_index 0 < tC1.n_rows) := by
  refine ⟨by norm_num [tC1], by norm_num [tC1], by norm_num [tC1], ?_, ?_⟩
  · rw [is_in_tile_iff]
    constructor <;> rw [is_between_iff] <;>
      norm_num [tC1, grid_float_tile.yb, grid_float_tile.yt, grid_float_tile.xl,
        grid_float_tile.xr]
  · norm_num [tC1, grid_float_tile.map_latitude_to_index, grid_float_tile.yt, cppInt]

/-- C1 witness: the amended bound statement at a concrete in-tile interior
point of `tC1`. -/
theorem C1_witness :
    (0 < tC1.n_rows ∧ 0 < tC1.n_columns ∧ 0 < tC1.cellsize ∧
      tC1.is_in_tile (1/2) (1/2) = true ∧ (1/2 : ℚ) ≠ tC1.yb ∧ (1/2 : ℚ) ≠ tC1.xr) ∧
    ((0 ≤ tC1.map_latitude_to_index (1/2) ∧ tC1.map_latitude_to_index (1/2) < tC1.n_rows) ∧
     (0 ≤ tC1.map_longitude_to_index (1/2) ∧
       tC1.map_longitude_to_index (1/2) < tC1.n_columns)) := by
  have hin : tC1.is_in_tile (1/2) (1/2) = true := by
    rw [is_in_tile_iff]
    constructor <;> rw [is_between_iff] <;>
      norm_num [tC1, grid_float_tile.yb, grid_float_tile.yt, grid_float_tile.xl,
        grid_float_tile.xr]
  refine ⟨⟨by norm_num [tC1], by norm_num [tC1], by norm_num [tC1], hin,
    by norm_num [tC1, grid_float_tile.yb], by norm_num [tC1, grid_float_tile.xl,
      grid_float_tile.xr]⟩, ?_⟩
  exact C1_index_bounds tC1 (1/2) (1/2) (by norm_num [tC1]) (by norm_num [tC1])
    (by norm_num [tC1]) hin (by norm_num [tC1, grid_float_tile.yb])
    (by norm_num [tC1, grid_float_tile.xl, grid_float_tile.xr])

/-- C7: on latitudes ≥ −1 and longitudes ≤ 1 (where both truncated quantities
are non-negative) `llc` agrees with the spec's floor formula; the
counterexample shows the two disagree for a southern-hemisphere latitude,
because C++ `int(...)` truncates toward zero rather than flooring. -/
theorem C7_llc_floor (lat lon : α) (hlat : -1 ≤ lat) (hlon : lon ≤ 1) :
    llc lat lon = ⌊lat + 1⌋ * 1000 + ⌊-(lon - 1)⌋ := by
  unfold llc
  rw [cppInt_of_nonneg (by linarith), cppInt_of_nonneg (by linarith)]

/-- C7 fails as stated for a latitude of −3/2: `llc` truncates `−1/2` to `0`
where the claimed formula floors it to `−1`. -/
theorem C7_counterexample :
    llc (α := ℚ) (-(3/2)) 0 ≠ ⌊(-(3/2) : ℚ) + 1⌋ * 1000 + ⌊-((0 : ℚ) - 1)⌋ := by
  have e1 : llc (α := ℚ) (-(3/2)) 0 = 1 := by
    unfold llc cppInt
    norm_num
  have e2 : ⌊(-(3/2) : ℚ) + 1⌋ * 1000 + ⌊-((0 : ℚ) - 1)⌋ = -999 := by norm_num
  rw [e1, e2]
  norm_num

/-- C7 witness: the amended formula at the concrete point (40.1, −105.2). -/
theorem C7_witness :
    (-1 ≤ (401/10 : ℚ) ∧ (-1052/10 : ℚ) ≤ 1) ∧
    llc (401/10 : ℚ) (-1052/10) = ⌊(401/10 : ℚ) + 1⌋ * 1000 + ⌊-((-1052/10 : ℚ) - 1)⌋ :=
  ⟨⟨by norm_num, by norm_num⟩, C7_llc_floor (401/10) (-1052/10) (by norm_num) (by norm_num)⟩

/-- C8: mapping a valid cell's centre back through `index_pair` is the
identity (cell size positive, indices in range). -/
theorem C8_cell_centre_inverse (t : grid_float_tile α) (row col : ℤ)
    (hcs : 0 < t.cellsize) (hr0 : 0 ≤ row) (hr1 : row < t.n_rows)
    (hc0 : 0 ≤ col) (hc1 : col < t.n_columns) :
    t.index_pair (t.cell_centre (row, col)).1 (t.cell_centre (row, col)).2 = (row, col) := by
  have hcs' : t.cellsize ≠ 0 := ne_of_gt hcs
  have hrow : (t.yt - (t.cell_centre (row, col)).1) / t.cellsize = (row : α) + 1/2 := by
    simp only [grid_float_tile.cell_centre]
    field_simp
    ring
  have hcol : ((t.cell_centre (row, col)).2 - t.xl) / t.cellsize = (col : α) + 1/2 := by
    simp only [grid_float_tile.cell_centre]
    field_simp
    ring
  have hrow0 : (0 : α) ≤ (row : α) + 1/2 := by
    have : (0 : α) ≤ (row : α) := by exact_mod_cast hr0
    linarith
  have hcol0 : (0 : α) ≤ (col : α) + 1/2 := by
    have : (0 : α) ≤ (col : α) := by exact_mod_cast hc0
    linarith
  have hhalf : ⌊(1/2 : α)⌋ = 0 := by
    rw [Int.floor_eq_zero_iff]
    constructor <;> norm_num
  unfold grid_float_tile.index_pair grid_float_tile.map_latitude_to_index
    grid_float_tile.map_longitude_to_index
  rw [hrow, hcol, cppInt_of_nonneg hrow0, cppInt_of_nonneg hcol0]
  rw [Int.floor_int_add, Int.floor_int_add, hhalf]
  simp

/-- C8 witness: the inverse property at cell (1, 2) of the spec's concrete
4×4 tile with 0.1° cells and corner (40, −106). -/
theorem C8_witness :
    (0 < tC8.cellsize ∧ (0 : ℤ) ≤ 1 ∧ (1 : ℤ) < tC8.n_rows ∧ (0 : ℤ) ≤ 2 ∧
      (2 : ℤ) < tC8.n_columns) ∧
    tC8.index_pair (tC8.cell_centre (1, 2)).1 (tC8.cell_centre (1, 2)).2 = (1, 2) :=
  ⟨⟨by norm_num [tC8], by norm_num, by norm_num [tC8], by norm_num, by norm_num [tC8]⟩,
    C8_cell_centre_inverse tC8 1 2 (by norm_num [tC8]) (by norm_num) (by norm_num [tC8])
      (by norm_num) (by norm_num [tC8])⟩

end IndexMapping

section Naming

/-- Zero-padding a decimal rendering to width 2 and parsing it back is the
identity below 100 (and the padded string has length exactly 2). -/
theorem pad_parse_two : ∀ m : ℕ, m < 100 →
    (pad_string (to_string_digits m) 2 '0').length = 2 ∧
    from_string_nat (pad_string (to_string_digits m) 2 '0') = m := by decide

set_option maxRecDepth 10000 in
/-- Zero-padding a decimal rendering to width 3 and parsing it back is the
identity below 1000 (and the padded string has length exactly 3). -/
theorem pad_parse_three : ∀ m : ℕ, m < 1000 →
    (pad_string (to_string_digits m) 3 '0').length = 3 ∧
    from_string_nat (pad_string (to_string_digits m) 3 '0') = m := by decide

/-- C6: parsing the base filename back to a tile code inverts formatting,
for positive codes whose latitude part has at most two digits (the longitude
part, `c % 1000`, always has at most three). -/
theorem C6_roundtrip (c : ℕ) (hpos : 0 < c) (hlat : c / 1000 < 100) :
    llc_of_base (base_filename c) = c := by
  obtain ⟨hl2, hp2⟩ := pad_parse_two (c / 1000) hlat
  obtain ⟨hl3, hp3⟩ := pad_parse_three (c % 1000) (Nat.mod_lt c (by norm_num))
  obtain ⟨a, b, hab⟩ := List.length_eq_two.mp hl2
  obtain ⟨x, y, z, hxyz⟩ := List.length_eq_three.mp hl3
  have hbase : base_filename c = 'n' :: a :: b :: 'w' :: x :: y :: z :: [] := by
    rw [base_filename, hab, hxyz]
    rfl
  rw [hab] at hp2
  rw [hxyz] at hp3
  have h1 : (('n' :: a :: b :: 'w' :: x :: y :: z :: []).drop 1).take 2 = [a, b] := rfl
  have h2 : (('n' :: a :: b :: 'w' :: x :: y :: z :: []).drop 4).take 3 = [x, y, z] := rfl
  rw [llc_of_base, hbase, h1, h2, hp2, hp3, Nat.mul_comm]
  exact Nat.div_add_mod c 1000

/-- C6 witness: the round trip at tile code 41106 (`n41w106`). -/
theorem C6_witness :
    (0 < 41106 ∧ 41106 / 1000 < 100) ∧ llc_of_base (base_filename 41106) = 41106 :=
  ⟨⟨by decide, by decide⟩, C6_roundtrip 41106 (by decide) (by decide)⟩

end Naming

section Fetcher

/-- C9: when the local header and data files both exist and are non-empty,
`download_if_necessary` returns the file system unchanged — uniformly in the
command environment, so no directory creation, download, extraction or any
other command effect can have been applied. -/
theorem C9_no_redownload (env : sys_env) (llcode : ℕ) (local_directory : String)
    (fs : file_system)
    (h1 : file_exists fs (full_header_name llcode local_directory) = true)
    (h2 : file_empty fs (full_header_name llcode local_directory) = false)
    (h3 : file_exists fs (full_data_name llcode local_directory) = true)
    (h4 : file_empty fs (full_data_name llcode local_directory) = false) :
    download_if_necessary env llcode local_directory fs = fetch_result.ok fs := by
  simp [download_if_necessary, h1, h2, h3, h4]

/-- C9 witness: a file system holding exactly the two (non-empty) local files
of tile `n41w106`, under an arbitrary no-op environment. -/
theorem C9_witness :
    (file_exists fsW (full_header_name 41106 "/tmp") = true ∧
     file_empty fsW (full_header_name 41106 "/tmp") = false ∧
     file_exists fsW (full_data_name 41106 "/tmp") = true ∧
     file_empty fsW (full_data_name 41106 "/tmp") = false) ∧
    download_if_necessary envW 41106 "/tmp" fsW = fetch_result.ok fsW := by
  have h1 : file_exists fsW (full_header_name 41106 "/tmp") = true := by decide
  have h2 : file_empty fsW (full_header_name 41106 "/tmp") = false := by decide
  have h3 : file_exists fsW (full_data_name 41106 "/tmp") = true := by decide
  have h4 : file_empty fsW (full_data_name 41106 "/tmp") = false := by decide
  exact ⟨⟨h1, h2, h3, h4⟩, C9_no_redownload envW 41106 "/tmp" fsW h1 h2 h3 h4⟩

end Fetcher

section Geometry

/-- `atan2` of non-negative arguments is non-negative. -/
theorem atan2_nonneg {y x : ℝ} (hy : 0 ≤ y) (hx : 0 ≤ x) : 0 ≤ atan2 y x := by
  unfold atan2
  by_cases h1 : 0 < x
  · rw [if_pos h1]
    have : Real.arctan 0 ≤ Real.arctan (y / x) :=
      Real.arctan_strictMono.monotone (div_nonneg hy (le_of_lt h1))
    rw [Real.arctan_zero] at this
    exact this
  · rw [if_neg h1, if_neg (not_lt.mpr hx)]
    by_cases h2 : 0 < y
    · rw [if_pos h2]
      linarith [Real.pi_pos]
    · rw [if_neg h2, if_neg (not_lt.mpr hy)]

/-- The haversine distance is non-negative. -/
theorem distance_nonneg (lat1 long1 lat2 long2 : ℝ) : 0 ≤ distance lat1 long1 lat2 long2 := by
  unfold distance
  have h := atan2_nonneg (Real.sqrt_nonneg (hav_a lat1 long1 lat2 long2))
    (Real.sqrt_nonneg (1 - hav_a lat1 long1 lat2 long2))
  have hRE : (0 : ℝ) ≤ RE := by norm_num [RE]
  nlinarith

/-- The haversine distance from a point to itself is zero. -/
theorem distance_self (lat long : ℝ) : distance lat long lat long = 0 := by
  have ha : hav_a lat long lat long = 0 := by
    unfold hav_a
    norm_num
  unfold distance
  rw [ha]
  norm_num [atan2, Real.arctan_zero]

/-- `atan2(√a, √(1−a))` is at least π/4 once `a ≥ 1/2`. -/
theorem atan2_sqrt_ge {a : ℝ} (ha : 1/2 ≤ a) :
    Real.pi / 4 ≤ atan2 (Real.sqrt a) (Real.sqrt (1 - a)) := by
  unfold atan2
  by_cases hx : 0 < Real.sqrt (1 - a)
  · rw [if_pos hx]
    have h1 : Real.sqrt (1 - a) ≤ Real.sqrt a := Real.sqrt_le_sqrt (by linarith)
    have h2 : (1 : ℝ) ≤ Real.sqrt a / Real.sqrt (1 - a) := (one_le_div hx).mpr h1
    have h3 : Real.arctan 1 ≤ Real.arctan (Real.sqrt a / Real.sqrt (1 - a)) :=
      Real.arctan_strictMono.monotone h2
    rw [Real.arctan_one] at h3
    exact h3
  · rw [if_neg hx, if_neg (not_lt.mpr (Real.sqrt_nonneg _)),
      if_pos (Real.sqrt_pos.mpr (by linarith : (0:ℝ) < a))]
    linarith [Real.pi_pos]

/-- Any point pair whose haversine `a` is at least 1/2 is more than one metre
apart. -/
theorem one_lt_distance {lat1 long1 lat2 long2 : ℝ}
    (h : 1/2 ≤ hav_a lat1 long1 lat2 long2) : 1 < distance lat1 long1 lat2 long2 := by
  unfold distance
  have h1 := atan2_sqrt_ge h
  have h2 : 3 < Real.pi := Real.pi_gt_three
  rw [RE]
  nlinarith

/-- A lower bound on the sine at the 62.5° (in the code's degree-to-radian
conversion) half-angle used by the concrete fixtures. -/
theorem sin_625_lower : Real.sqrt 3 / 2 < Real.sin (((125:ℝ) - 0) / 2 * DTOR) := by
  have hx : ((125:ℝ) - 0) / 2 * DTOR = 25 * cppPI / 72 := by
    rw [DTOR]
    ring
  have hπ3 : Real.pi / 3 < 25 * cppPI / 72 := by
    rw [cppPI]
    nlinarith [Real.pi_lt_d2]
  have hX2 : 25 * cppPI / 72 ≤ Real.pi / 2 := by
    rw [cppPI]
    nlinarith [Real.pi_gt_three]
  have h := Real.sin_lt_sin_of_lt_of_le_pi_div_two
    (x := Real.pi / 3) (y := 25 * cppPI / 72) (by linarith [Real.pi_pos]) hX2 hπ3
  rw [Real.sin_pi_div_three] at h
  rw [hx]
  exact h

/-- The haversine `a` between (0, 0) and (125, 0) exceeds 1/2. -/
theorem hav_a_125_0 : 1/2 ≤ hav_a 0 0 125 0 := by
  unfold hav_a
  have h := sin_625_lower
  have h0 : (0 : ℝ) < Real.sqrt 3 / 2 := by positivity
  have h1 : Real.sqrt 3 / 2 * (Real.sqrt 3 / 2) <
      Real.sin (((125:ℝ) - 0) / 2 * DTOR) * Real.sin (((125:ℝ) - 0) / 2 * DTOR) :=
    mul_self_lt_mul_self (le_of_lt h0) h
  have h2 : Real.sqrt 3 * Real.sqrt 3 = 3 := Real.mul_self_sqrt (by norm_num)
  have hz : ((0:ℝ) - 0) / 2 * DTOR = 0 := by ring
  rw [hz, Real.sin_zero]
  nlinarith

/-- The haversine `a` between (0, 0) and (125, −1) exceeds 1/2. -/
theorem hav_a_125_neg1 : 1/2 ≤ hav_a 0 0 125 (-1) := by
  unfold hav_a
  have h := sin_625_lower
  have h0 : (0 : ℝ) < Real.sqrt 3 / 2 := by positivity
  have h1 : Real.sqrt 3 / 2 * (Real.sqrt 3 / 2) <
      Real.sin (((125:ℝ) - 0) / 2 * DTOR) * Real.sin (((125:ℝ) - 0) / 2 * DTOR) :=
    mul_self_lt_mul_self (le_of_lt h0) h
  have h2 : Real.sqrt 3 * Real.sqrt 3 = 3 := Real.mul_self_sqrt (by norm_num)
  have hz : ((0:ℝ)) * DTOR = 0 := by ring
  have ht : Real.sin (((-1:ℝ) - 0) / 2 * DTOR) ^ 2 ≤ (((-1:ℝ) - 0) / 2 * DTOR) ^ 2 :=
    Real.sin_sq_le_sq
  have ht2 : (((-1:ℝ) - 0) / 2 * DTOR) ^ 2 ≤ 1/4 := by
    rw [DTOR, cppPI]
    norm_num
  have hc : -1 ≤ Real.cos ((125:ℝ) * DTOR) := Real.neg_one_le_cos _
  have hs0 : 0 ≤ Real.sin (((-1:ℝ) - 0) / 2 * DTOR) * Real.sin (((-1:ℝ) - 0) / 2 * DTOR) :=
    mul_self_nonneg _
  have hkey : 0 ≤ (Real.cos ((125:ℝ) * DTOR) + 1) *
      (Real.sin (((-1:ℝ) - 0) / 2 * DTOR) * Real.sin (((-1:ℝ) - 0) / 2 * DTOR)) :=
    mul_nonneg (by linarith) hs0
  rw [hz, Real.cos_zero]
  nlinarith [sq_nonneg (Real.sin (((-1:ℝ) - 0) / 2 * DTOR))]

end Geometry

section Quadrants

/-- A point within one metre of its cell's centre is classified `Q0`. -/
theorem quadrant_eq_Q0 (t : grid_float_tile ℝ) (lat lon : ℝ)
    (h : distance (t.cell_centre_ll lat lon).1 (t.cell_centre_ll lat lon).2 lat lon < 1) :
    t.quadrant lat lon = QUADRANT.Q0 := by
  simp only [grid_float_tile.quadrant]
  rw [if_pos h]

/-- C3: at an in-tile point within one metre of its cell's centre,
`interpolated_value` returns exactly the raw `cell_value` when that value is
at least −9000, and raises the `Q0` NODATA interpolation error when it is
below −9000. -/
theorem C3_q0_exact (t : grid_float_tile ℝ) (lat lon : ℝ)
    (hin : t.is_in_tile lat lon = true)
    (hd : distance (t.cell_centre_ll lat lon).1 (t.cell_centre_ll lat lon).2 lat lon < 1) :
    (-9000 ≤ t.cell_value lat lon →
      t.interpolated_value lat lon = Except.ok (t.cell_value lat lon)) ∧
    (t.cell_value lat lon < -9000 →
      t.interpolated_value lat lon =
        Except.error ⟨GRID_FLOAT_NODATA, QUADRANT.Q0, lat, lon⟩) := by
  have hq := quadrant_eq_Q0 t lat lon hd
  unfold grid_float_tile.interpolated_value
  rw [hq]
  simp only [grid_float_tile.quadrant_value]
  constructor
  · intro h
    rw [if_neg (not_lt.mpr h)]
  · intro h
    rw [if_pos h]

/-- The point (5/2, 3/2) lies in `tC3`. -/
theorem tC3_in : tC3.is_in_tile (5/2) (3/2) = true := by
  rw [is_in_tile_iff]
  constructor <;> rw [is_between_iff] <;>
    norm_num [tC3, grid_float_tile.yb, grid_float_tile.yt, grid_float_tile.xl,
      grid_float_tile.xr]

/-- The point (5/2, 3/2) is the exact centre of cell (1, 1) of `tC3`. -/
theorem tC3_centre : tC3.cell_centre_ll (5/2) (3/2) = (5/2, 3/2) := by
  unfold grid_float_tile.cell_centre_ll grid_float_tile.index_pair
    grid_float_tile.cell_centre grid_float_tile.map_latitude_to_index
    grid_float_tile.map_longitude_to_index grid_float_tile.yt grid_float_tile.xl cppInt tC3
  norm_num [Prod.ext_iff]

/-- The raw cell value of `tC3` at (5/2, 3/2). -/
theorem tC3_value : tC3.cell_value (5/2) (3/2) = 1000 := by
  rw [grid_float_tile.cell_value, if_pos tC3_in]
  simp [tC3]

/-- C3 witness: the centre of cell (1, 1) of `tC3` (all heights 1000). -/
theorem C3_witness :
    (tC3.is_in_tile (5/2) (3/2) = true ∧
     distance (tC3.cell_centre_ll (5/2) (3/2)).1 (tC3.cell_centre_ll (5/2) (3/2)).2
       (5/2) (3/2) < 1) ∧
    tC3.interpolated_value (5/2) (3/2) = Except.ok (tC3.cell_value (5/2) (3/2)) := by
  have hd : distance (tC3.cell_centre_ll (5/2) (3/2)).1 (tC3.cell_centre_ll (5/2) (3/2)).2
      (5/2) (3/2) < 1 := by
    rw [tC3_centre]
    show distance (5/2) (3/2) (5/2) (3/2) < 1
    rw [distance_self]
    norm_num
  have hcv : -9000 ≤ tC3.cell_value (5/2) (3/2) := by
    rw [tC3_value]
    norm_num
  exact ⟨⟨tC3_in, hd⟩, (C3_q0_exact tC3 (5/2) (3/2) tC3_in hd).1 hcv⟩

/-- Beyond the one-metre cutoff the quadrant tests evaluate as the
first-match chain of the source (helper shared by several developments). -/
theorem quadrant_chain (t : grid_float_tile ℝ) (lat lon : ℝ)
    (hd : 1 ≤ distance (t.cell_centre_ll lat lon).1 (t.cell_centre_ll lat lon).2 lat lon) :
    t.quadrant lat lon =
      (if (t.cell_centre_ll lat lon).1 ≤ lat ∧ (t.cell_centre_ll lat lon).2 ≤ lon then
        QUADRANT.Q1
       else if (t.cell_centre_ll lat lon).1 ≤ lat then QUADRANT.Q2
       else if lon ≤ (t.cell_centre_ll lat lon).2 then QUADRANT.Q3
       else QUADRANT.Q4) := by
  simp only [grid_float_tile.quadrant]
  rw [if_neg (not_lt.mpr hd)]
  have hAD : ¬((t.cell_centre_ll lat lon).1 ≤ lat) → lat ≤ (t.cell_centre_ll lat lon).1 :=
    fun h => le_of_lt (not_le.mp h)
  have hBC : ¬((t.cell_centre_ll lat lon).2 ≤ lon) → lon ≤ (t.cell_centre_ll lat lon).2 :=
    fun h => le_of_lt (not_le.mp h)
  split_ifs <;> first | rfl | tauto

/-- C10: past the one-metre `Q0` cutoff, the quadrant tests resolve ties
toward the lowest-numbered quadrant, exactly in the claimed order: `Q1` when
latitude and longitude both at least the centre's, else `Q2` when latitude at
least the centre's, else `Q3` when longitude at most the centre's, else `Q4`. -/
theorem C10_quadrant_order (t : grid_float_tile ℝ) (lat lon : ℝ)
    (hd : 1 < distance (t.cell_centre_ll lat lon).1 (t.cell_centre_ll lat lon).2 lat lon) :
    t.quadrant lat lon =
      (if (t.cell_centre_ll lat lon).1 ≤ lat ∧ (t.cell_centre_ll lat lon).2 ≤ lon then
        QUADRANT.Q1
       else if (t.cell_centre_ll lat lon).1 ≤ lat then QUADRANT.Q2
       else if lon ≤ (t.cell_centre_ll lat lon).2 then QUADRANT.Q3
       else QUADRANT.Q4) :=
  quadrant_chain t lat lon (le_of_lt hd)

/-- The single cell of `tV` is centred at the origin when queried from
(125, 0). -/
theorem tV_centre : tV.cell_centre_ll 125 0 = (0, 0) := by
  unfold grid_float_tile.cell_centre_ll grid_float_tile.index_pair
    grid_float_tile.cell_centre grid_float_tile.map_latitude_to_index
    grid_float_tile.map_longitude_to_index grid_float_tile.yt grid_float_tile.xl cppInt tV
  norm_num [Prod.ext_iff]

/-- C10 witness: (125, 0) on `tV` is far from the centre and on the
`Q1`/`Q2` tie line (longitude equal to the centre's), and is classified `Q1`. -/
theorem C10_witness :
    1 < distance (tV.cell_centre_ll 125 0).1 (tV.cell_centre_ll 125 0).2 125 0 ∧
    tV.quadrant 125 0 = QUADRANT.Q1 := by
  have hd : 1 < distance (tV.cell_centre_ll 125 0).1 (tV.cell_centre_ll 125 0).2 125 0 := by
    rw [tV_centre]
    exact one_lt_distance hav_a_125_0
  refine ⟨hd, ?_⟩
  rw [C10_quadrant_order tV 125 0 hd, tV_centre]
  norm_num

end Quadrants

section Interpolation

/-- C2: in each non-`Q0` quadrant branch, `interpolated_value` computes the
spec's inverse-distance-weighted mean over the query cell and its three
quadrant neighbours — with the `valid_height` filter applied to both sums in
the `Q1` branch, and with no validity filter in the `Q2`, `Q3` and `Q4`
branches — raising the quadrant's NODATA error exactly when the weight sum is
zero. -/
theorem C2_idw_branches (t : grid_float_tile ℝ) (lat lon : ℝ) :
    (t.quadrant lat lon = QUADRANT.Q1 →
      t.interpolated_value lat lon =
        if t.idw_den_filtered lat lon QUADRANT.Q1 = 0 then
          Except.error ⟨GRID_FLOAT_NODATA, QUADRANT.Q1, lat, lon⟩
        else Except.ok (t.idw_num_filtered lat lon QUADRANT.Q1 /
          t.idw_den_filtered lat lon QUADRANT.Q1)) ∧
    (t.quadrant lat lon = QUADRANT.Q2 →
      t.interpolated_value lat lon =
        if t.idw_den lat lon QUADRANT.Q2 = 0 then
          Except.error ⟨GRID_FLOAT_NODATA, QUADRANT.Q2, lat, lon⟩
        else Except.ok (t.idw_num lat lon QUADRANT.Q2 / t.idw_den lat lon QUADRANT.Q2)) ∧
    (t.quadrant lat lon = QUADRANT.Q3 →
      t.interpolated_value lat lon =
        if t.idw_den lat lon QUADRANT.Q3 = 0 then
          Except.error ⟨GRID_FLOAT_NODATA, QUADRANT.Q3, lat, lon⟩
        else Except.ok (t.idw_num lat lon QUADRANT.Q3 / t.idw_den lat lon QUADRANT.Q3)) ∧
    (t.quadrant lat lon = QUADRANT.Q4 →
      t.interpolated_value lat lon =
        if t.idw_den lat lon QUADRANT.Q4 = 0 then
          Except.error ⟨GRID_FLOAT_NODATA, QUADRANT.Q4, lat, lon⟩
        else Except.ok (t.idw_num lat lon QUADRANT.Q4 / t.idw_den lat lon QUADRANT.Q4)) := by
  refine ⟨?_, ?_, ?_, ?_⟩ <;> intro hq <;>
    · unfold grid_float_tile.interpolated_value
      rw [hq]
      simp only [grid_float_tile.quadrant_value, grid_float_tile.idw_num_filtered,
        grid_float_tile.idw_den_filtered, grid_float_tile.idw_num, grid_float_tile.idw_den,
        grid_float_tile.nbr_height, grid_float_tile.nbr_dist, quadrant_cells,
        grid_float_tile.cell_centre_ll, Fin.sum_univ_four, Matrix.cons_val_zero,
        Matrix.cons_val_one, Matrix.head_cons, Matrix.cons_val_two, Matrix.tail_cons,
        Matrix.cons_val_three]

/-- The single cell of `tV` keeps valid heights; its quadrant at (125, 0) is
`Q1` (helper). -/
theorem tV_quadrant : tV.quadrant 125 0 = QUADRANT.Q1 := by
  have hd : 1 ≤ distance (tV.cell_centre_ll 125 0).1 (tV.cell_centre_ll 125 0).2 125 0 := by
    rw [tV_centre]
    exact le_of_lt (one_lt_distance hav_a_125_0)
  rw [quadrant_chain tV 125 0 hd, tV_centre]
  norm_num

/-- The `Q1` weight denominator at (125, 0) on `tV` is positive (helper). -/
theorem tV_den_pos : 0 < tV.idw_den_filtered 125 0 QUADRANT.Q1 := by
  have h1000 : tV.valid_height (1000 : ℝ) = true := by
    unfold grid_float_tile.valid_height tV
    norm_num
  have hin : tV.is_in_tile 125 0 = true := by
    rw [is_in_tile_iff]
    constructor <;> rw [is_between_iff] <;>
      norm_num [tV, grid_float_tile.yb, grid_float_tile.yt, grid_float_tile.xl,
        grid_float_tile.xr]
  have hval : ∀ i : Fin 4, tV.nbr_height 125 0 QUADRANT.Q1 i = 1000 := by
    intro i
    fin_cases i
    · simp only [grid_float_tile.nbr_height, Matrix.cons_val_zero,
        grid_float_tile.cell_value, hin]
      simp [tV]
    · simp [grid_float_tile.nbr_height, grid_float_tile.cell_value_ip, tV]
    · simp [grid_float_tile.nbr_height, grid_float_tile.cell_value_ip, tV]
    · simp [grid_float_tile.nbr_height, grid_float_tile.cell_value_ip, tV]
  have hd0 : 0 < tV.nbr_dist 125 0 QUADRANT.Q1 0 := by
    have : tV.nbr_dist 125 0 QUADRANT.Q1 0 =
        distance (tV.cell_centre_ll 125 0).1 (tV.cell_centre_ll 125 0).2 125 0 := by
      simp [grid_float_tile.nbr_dist, quadrant_cells, grid_float_tile.cell_centre_ll,
        Matrix.cons_val_zero]
    rw [this, tV_centre]
    have := one_lt_distance hav_a_125_0
    linarith
  unfold grid_float_tile.idw_den_filtered
  rw [Fin.sum_univ_four]
  rw [hval 0, hval 1, hval 2, hval 3, h1000]
  simp only [if_true]
  have n0 : 0 < 1 / tV.nbr_dist 125 0 QUADRANT.Q1 0 := by positivity
  have n1 : 0 ≤ 1 / tV.nbr_dist 125 0 QUADRANT.Q1 1 :=
    one_div_nonneg.mpr (distance_nonneg _ _ _ _)
  have n2 : 0 ≤ 1 / tV.nbr_dist 125 0 QUADRANT.Q1 2 :=
    one_div_nonneg.mpr (distance_nonneg _ _ _ _)
  have n3 : 0 ≤ 1 / tV.nbr_dist 125 0 QUADRANT.Q1 3 :=
    one_div_nonneg.mpr (distance_nonneg _ _ _ _)
  linarith

/-- C2 witness: at (125, 0) the tile `tV` takes the filtered `Q1` branch with
a non-zero weight sum, so the interpolated value equals the spec's
inverse-distance-weighted mean. -/
theorem C2_witness :
    tV.quadrant 125 0 = QUADRANT.Q1 ∧
    tV.interpolated_value 125 0 =
      Except.ok (tV.idw_num_filtered 125 0 QUADRANT.Q1 /
        tV.idw_den_filtered 125 0 QUADRANT.Q1) := by
  refine ⟨tV_quadrant, ?_⟩
  have h := (C2_idw_branches tV 125 0).1 tV_quadrant
  rw [h, if_neg (ne_of_gt tV_den_pos)]

end Interpolation

section Nodata

/-- The `Q2` arm always produces a numeric value when the query point is at
positive distance from its cell centre: its unfiltered weight sum is positive
(helper). -/
theorem quadrant_value_Q2_isSome (t : grid_float_tile ℝ) (lat lon : ℝ)
    (hpos : 0 < distance (t.cell_centre_ll lat lon).1 (t.cell_centre_ll lat lon).2 lat lon) :
    (t.quadrant_value lat lon QUADRANT.Q2).toOption.isSome = true := by
  simp only [grid_float_tile.cell_centre_ll] at hpos
  simp only [grid_float_tile.quadrant_value, grid_float_tile.cell_centre_ll]
  split
  next hcond =>
    exfalso
    have t0 : 0 < 1 / distance (t.cell_centre (t.index_pair lat lon)).1
        (t.cell_centre (t.index_pair lat lon)).2 lat lon := one_div_pos.mpr hpos
    have t1 : 0 ≤ 1 / distance
        (t.cell_centre ((t.index_pair lat lon).1, (t.index_pair lat lon).2 - 1)).1
        (t.cell_centre ((t.index_pair lat lon).1, (t.index_pair lat lon).2 - 1)).2 lat lon :=
      one_div_nonneg.mpr (distance_nonneg _ _ _ _)
    have t2 : 0 ≤ 1 / distance
        (t.cell_centre ((t.index_pair lat lon).1 - 1, (t.index_pair lat lon).2)).1
        (t.cell_centre ((t.index_pair lat lon).1 - 1, (t.index_pair lat lon).2)).2 lat lon :=
      one_div_nonneg.mpr (distance_nonneg _ _ _ _)
    have t3 : 0 ≤ 1 / distance
        (t.cell_centre ((t.index_pair lat lon).1 - 1, (t.index_pair lat lon).2 - 1)).1
        (t.cell_centre ((t.index_pair lat lon).1 - 1, (t.index_pair lat lon).2 - 1)).2
        lat lon :=
      one_div_nonneg.mpr (distance_nonneg _ _ _ _)
    linarith
  next => simp [Except.toOption]

/-- Every point query on the first all-NODATA tile returns −9999; at the
inputs used below the point is inside the tile and the read is the in-range
raster cell (helper). -/
theorem tNOD1_cell_value (lat lon : ℝ) : tNOD1.cell_value lat lon = -9999 := by
  unfold grid_float_tile.cell_value
  split <;> norm_num [tNOD1]

/-- Every point query on the second all-NODATA tile returns −9999 (helper). -/
theorem tNOD2_cell_value (lat lon : ℝ) : tNOD2.cell_value lat lon = -9999 := by
  unfold grid_float_tile.cell_value
  split <;> norm_num [tNOD2]

/-- On `tNOD2` the point (125, −1) falls in cell (1, 1) — so its `Q2`
neighbourhood (1, 1), (1, 0), (0, 1), (0, 0) lies entirely inside the 2×2
raster (helper). -/
theorem tNOD2_ip : tNOD2.index_pair 125 (-1) = (1, 1) := by
  unfold grid_float_tile.index_pair grid_float_tile.map_latitude_to_index
    grid_float_tile.map_longitude_to_index grid_float_tile.yt grid_float_tile.xl cppInt tNOD2
  norm_num [Prod.ext_iff]

/-- Cell (1, 1) of `tNOD2` is centred at the origin (helper). -/
theorem tNOD2_centre : tNOD2.cell_centre_ll 125 (-1) = (0, 0) := by
  unfold grid_float_tile.cell_centre_ll grid_float_tile.index_pair
    grid_float_tile.cell_centre grid_float_tile.map_latitude_to_index
    grid_float_tile.map_longitude_to_index grid_float_tile.yt grid_float_tile.xl cppInt tNOD2
  norm_num [Prod.ext_iff]

/-- On `tNOD1` the point (125, 0) falls in cell (1, 0) — so its `Q1`
neighbourhood (1, 0), (1, 1), (0, 0), (0, 1) lies entirely inside the 2×2
raster (helper). -/
theorem tNOD1_ip : tNOD1.index_pair 125 0 = (1, 0) := by
  unfold grid_float_tile.index_pair grid_float_tile.map_latitude_to_index
    grid_float_tile.map_longitude_to_index grid_float_tile.yt grid_float_tile.xl cppInt tNOD1
  norm_num [Prod.ext_iff]

/-- Cell (1, 0) of `tNOD1` is centred at the origin (helper). -/
theorem tNOD1_centre : tNOD1.cell_centre_ll 125 0 = (0, 0) := by
  unfold grid_float_tile.cell_centre_ll grid_float_tile.index_pair
    grid_float_tile.cell_centre grid_float_tile.map_latitude_to_index
    grid_float_tile.map_longitude_to_index grid_float_tile.yt grid_float_tile.xl cppInt tNOD1
  norm_num [Prod.ext_iff]

/-- C4 (amended): (a) an out-of-tile `cell_value` query returns the NODATA
sentinel without raising; (b) in the `Q1` branch — the only interpolation
branch with a validity filter — a point all four of whose interpolation cells
fail `valid_height` raises the `Q1` NODATA interpolation error naming the
quadrant and the coordinates.  (As stated over all quadrants the claim fails:
the `Q2`–`Q4` branches apply no filter and return a numeric value; see the
counterexample.) -/
theorem C4_nodata (t : grid_float_tile ℝ) (lat lon : ℝ) :
    (t.is_in_tile lat lon = false → t.cell_value lat lon = (t.nodata : ℝ)) ∧
    (t.quadrant lat lon = QUADRANT.Q1 →
      t.valid_height (t.nbr_height lat lon QUADRANT.Q1 0) = false →
      t.valid_height (t.nbr_height lat lon QUADRANT.Q1 1) = false →
      t.valid_height (t.nbr_height lat lon QUADRANT.Q1 2) = false →
      t.valid_height (t.nbr_height lat lon QUADRANT.Q1 3) = false →
      t.interpolated_value lat lon =
        Except.error ⟨GRID_FLOAT_NODATA, QUADRANT.Q1, lat, lon⟩) := by
  constructor
  · intro h
    unfold grid_float_tile.cell_value
    simp [h]
  · intro hq h0 h1 h2 h3
    simp only [grid_float_tile.nbr_height, quadrant_cells, Matrix.cons_val_zero,
      Matrix.cons_val_one, Matrix.head_cons, Matrix.cons_val_two, Matrix.tail_cons,
      Matrix.cons_val_three] at h0 h1 h2 h3
    unfold grid_float_tile.interpolated_value
    rw [hq]
    simp only [grid_float_tile.quadrant_value, grid_float_tile.cell_centre_ll]
    simp [h0, h1, h2, h3]

/-- C4 fails as stated in the unfiltered branches: on the 2×2 all-NODATA
tile `tNOD2` the point (125, −1) falls in cell (1, 1) and is classified
`Q2`; its four interpolation cells (1, 1), (1, 0), (0, 1), (0, 0) — all
inside the raster — hold the NODATA value −9999, and yet
`interpolated_value` returns a numeric value instead of raising. -/
theorem C4_counterexample :
    tNOD2.index_pair 125 (-1) = (1, 1) ∧
    (tNOD2.nbr_height 125 (-1) QUADRANT.Q2 0 = -9999 ∧
     tNOD2.nbr_height 125 (-1) QUADRANT.Q2 1 = -9999 ∧
     tNOD2.nbr_height 125 (-1) QUADRANT.Q2 2 = -9999 ∧
     tNOD2.nbr_height 125 (-1) QUADRANT.Q2 3 = -9999) ∧
    tNOD2.quadrant 125 (-1) = QUADRANT.Q2 ∧
    (tNOD2.interpolated_value 125 (-1)).toOption.isSome = true := by
  have hd : 1 ≤ distance (tNOD2.cell_centre_ll 125 (-1)).1 (tNOD2.cell_centre_ll 125 (-1)).2
      125 (-1) := by
    rw [tNOD2_centre]
    exact le_of_lt (one_lt_distance hav_a_125_neg1)
  have hq : tNOD2.quadrant 125 (-1) = QUADRANT.Q2 := by
    rw [quadrant_chain tNOD2 125 (-1) hd, tNOD2_centre]
    norm_num
  have hsome : (tNOD2.quadrant_value 125 (-1) QUADRANT.Q2).toOption.isSome = true :=
    quadrant_value_Q2_isSome tNOD2 125 (-1) (by linarith)
  refine ⟨tNOD2_ip, ⟨?_, ?_, ?_, ?_⟩, hq, ?_⟩
  · simp only [grid_float_tile.nbr_height, Matrix.cons_val_zero]
    exact tNOD2_cell_value 125 (-1)
  · simp [grid_float_tile.nbr_height, grid_float_tile.cell_value_ip, tNOD2]
  · simp [grid_float_tile.nbr_height, grid_float_tile.cell_value_ip, tNOD2]
  · simp [grid_float_tile.nbr_height, grid_float_tile.cell_value_ip, tNOD2]
  · unfold grid_float_tile.interpolated_value
    rw [hq]
    exact hsome

/-- C4 witness: on the 2×2 all-NODATA tile `tNOD1`, (a) the out-of-tile
point (2000, 0) yields the sentinel from `cell_value`, and (b) the
`Q1`-classified point (125, 0) — in cell (1, 0), so all four of its
interpolation cells (1, 0), (1, 1), (0, 0), (0, 1) lie inside the raster
and fail the validity check — raises the `Q1` NODATA interpolation error. -/
theorem C4_witness :
    (tNOD1.is_in_tile 2000 0 = false ∧ tNOD1.cell_value 2000 0 = (tNOD1.nodata : ℝ)) ∧
    (tNOD1.index_pair 125 0 = (1, 0) ∧
     tNOD1.quadrant 125 0 = QUADRANT.Q1 ∧
     (tNOD1.valid_height (tNOD1.nbr_height 125 0 QUADRANT.Q1 0) = false ∧
      tNOD1.valid_height (tNOD1.nbr_height 125 0 QUADRANT.Q1 1) = false ∧
      tNOD1.valid_height (tNOD1.nbr_height 125 0 QUADRANT.Q1 2) = false ∧
      tNOD1.valid_height (tNOD1.nbr_height 125 0 QUADRANT.Q1 3) = false) ∧
     tNOD1.interpolated_value 125 0 =
       Except.error ⟨GRID_FLOAT_NODATA, QUADRANT.Q1, 125, 0⟩) := by
  have hout : tNOD1.is_in_tile 2000 0 = false := by
    unfold grid_float_tile.is_in_tile grid_float_tile.is_between grid_float_tile.yb
      grid_float_tile.yt grid_float_tile.xl grid_float_tile.xr tNOD1
    norm_num
  have hd : 1 ≤ distance (tNOD1.cell_centre_ll 125 0).1 (tNOD1.cell_centre_ll 125 0).2
      125 0 := by
    rw [tNOD1_centre]
    exact le_of_lt (one_lt_distance hav_a_125_0)
  have hq : tNOD1.quadrant 125 0 = QUADRANT.Q1 := by
    rw [quadrant_chain tNOD1 125 0 hd, tNOD1_centre]
    norm_num
  have hv : ∀ i : Fin 4,
      tNOD1.valid_height (tNOD1.nbr_height 125 0 QUADRANT.Q1 i) = false := by
    intro i
    have hval : tNOD1.nbr_height 125 0 QUADRANT.Q1 i = -9999 := by
      fin_cases i
      · simp only [grid_float_tile.nbr_height, Matrix.cons_val_zero]
        exact tNOD1_cell_value 125 0
      · simp [grid_float_tile.nbr_height, grid_float_tile.cell_value_ip, tNOD1]
      · simp [grid_float_tile.nbr_height, grid_float_tile.cell_value_ip, tNOD1]
      · simp [grid_float_tile.nbr_height, grid_float_tile.cell_value_ip, tNOD1]
    rw [hval]
    unfold grid_float_tile.valid_height tNOD1
    norm_num
  exact ⟨⟨hout, (C4_nodata tNOD1 2000 0).1 hout⟩,
    ⟨tNOD1_ip, hq, ⟨hv 0, hv 1, hv 2, hv 3⟩,
      (C4_nodata tNOD1 125 0).2 hq (hv 0) (hv 1) (hv 2) (hv 3)⟩⟩

end Nodata

section ForwardGeodesic

/-- C5: at the concrete origin latitude π/3 radians (expressed in the code's
degree units), bearing π/2 radians, and distance `RE·π/3` metres, the
latitude computed by `ll_from_bd` differs from the spec's forward-geodesic
formula: the source computes `asin(sin(lat1_r·cosδ + cos lat1_r·sinδ·cosθ))`,
applying `sin` to the whole sum — `sin(lat1_r)` is misparenthesised — where
its own doc comment and the spec prescribe
`asin(sin(lat1_r)·cosδ + cos(lat1_r)·sinδ·cosθ)`. -/
theorem C5_lat2_parenthesis_bug :
    (ll_from_bd ((Real.pi/3) / DTOR) 0 ((Real.pi/2) / DTOR) (RE * (Real.pi/3))).1 ≠
    (ll_from_bd_spec ((Real.pi/3) / DTOR) 0 ((Real.pi/2) / DTOR) (RE * (Real.pi/3))).1 := by
  have hD : DTOR ≠ 0 := by
    rw [DTOR, cppPI]
    norm_num
  have hRE : RE ≠ 0 := by
    rw [RE]
    norm_num
  have e1 : (Real.pi/3) / DTOR * DTOR = Real.pi/3 := div_mul_cancel₀ _ hD
  have e2 : (Real.pi/2) / DTOR * DTOR = Real.pi/2 := div_mul_cancel₀ _ hD
  have e3 : RE * (Real.pi/3) / RE = Real.pi/3 := by
    field_simp
    ring
  simp only [ll_from_bd, ll_from_bd_spec]
  rw [e1, e2, e3, Real.cos_pi_div_two, Real.cos_pi_div_three, Real.sin_pi_div_three]
  have ha : Real.pi/3 * (1/2) + 1/2 * (Real.sqrt 3 / 2) * 0 = Real.pi/6 := by ring
  have hb : Real.sqrt 3 / 2 * (1/2) + 1/2 * (Real.sqrt 3 / 2) * 0 = Real.sqrt 3 / 4 := by
    ring
  rw [ha, hb, Real.sin_pi_div_six]
  have hR : RTOD ≠ 0 := by
    rw [RTOD, DTOR, cppPI]
    norm_num
  intro hcontra
  have hsq : Real.sqrt 3 * Real.sqrt 3 = 3 := Real.mul_self_sqrt (by norm_num)
  have hs3 : Real.sqrt 3 < 2 := by nlinarith [Real.sqrt_nonneg 3]
  have h := mul_right_cancel₀ hR hcontra
  rw [Real.arcsin_inj (by norm_num) (by norm_num)
    (by nlinarith [Real.sqrt_nonneg 3]) (by nlinarith)] at h
  nlinarith

end ForwardGeodesic

end Drmap
